import Mathlib

/-!
Verification of the self-managed memory extraction/ingestion pipeline in
`01-tutorials/04-AgentCore-memory/02-long-term-memory/03-self-managed-strategy/lambda_function.py`.

The Python module is shallowly embedded below: every external effect
(`json.loads`, S3 download, Bedrock `invoke_model`, AgentCore
`batch_create_memory_records`, `uuid.uuid4`, wall-clock time) is passed in as an
explicit function argument, and each Python function becomes a pure Lean
function over those arguments.  JSON numbers are modelled as integers (no claim
under study depends on fractional values); `datetime` values are modelled at
one-second resolution as POSIX epoch seconds, which is the resolution the
specification speaks about ("the same wall-clock second").
-/

namespace SelfManagedMemory

/-- JSON values, as produced by `json.loads`.  Numbers are modelled as integers;
objects are association lists (Python dicts have unique keys after parsing, and
lookup takes the first binding). -/
inductive Json where
  | jnull
  | jbool (b : Bool)
  | jint (n : Int)
  | jstr (s : String)
  | jarr (xs : List Json)
  | jobj (fields : List (String × Json))

/-- Field lookup on a JSON value: `some v` when the value is an object that
binds the key, `none` otherwise. -/
def Json.getField (j : Json) (k : String) : Option Json :=
  match j with
  | .jobj fields => fields.lookup k
  | _ => none

/-- Whether a JSON value is an object binding the given key
(Python `k in d` on a dict). -/
def Json.hasKey (j : Json) (k : String) : Bool :=
  (j.getField k).isSome

/-- `datetime.fromtimestamp` on an integral number of POSIX seconds, returning
the resulting instant as epoch seconds; `none` models the call raising
(`OverflowError`/`OSError` outside the representable range, whose upper end is
9999-12-31T23:59:59 = 253402300799). -/
def fromtimestamp? (s : Int) : Option Int :=
  if 0 ≤ s ∧ s ≤ 253402300799 then some s else none

/-- Timestamp normalization performed inside
`MemoryIngestor.batch_ingest_memories` (lines 188-206 of the source): an
`isinstance(ts, int)` value strictly greater than 10000000000 is treated as
milliseconds and divided by 1000, any other int (Python `bool` included, being
an `int` subclass) is passed to `fromtimestamp` directly, and every path that
raises — a non-numeric value or an out-of-range instant — falls back to
`datetime.now()`, supplied here as `now`. -/
def normalize_timestamp (ts : Json) (now : Int) : Int :=
  match ts with
  | .jint v =>
      if 10000000000 < v then (fromtimestamp? (v / 1000)).getD now
      else (fromtimestamp? v).getD now
  | .jbool b => (fromtimestamp? (if b then 1 else 0)).getD now
  | _ => now

/-- Number of decimal digits of `n.natAbs`, fuel-bounded so that it reduces by
structural recursion (fuel 30 covers every integer the pipeline can meet). -/
def digitCountAux : Nat → Nat → Nat
  | 0, _ => 0
  | fuel + 1, n => if n < 10 then 1 else digitCountAux fuel (n / 10) + 1

/-- Number of decimal digits of an integer's absolute value. -/
def digitCount (n : Int) : Nat :=
  digitCountAux 30 n.natAbs

/-- Follows the claim's words, for comparison with `normalize_timestamp`:
"if the timestamp is a 13-digit integer it is divided by 1000 and interpreted
as milliseconds, any other timestamp value is interpreted as seconds, and if
the conversion raises, the record's timestamp falls back to the current
wall-clock time". -/
def claimed_normalize_timestamp (ts : Json) (now : Int) : Int :=
  match ts with
  | .jint v =>
      if digitCount v = 13 then (fromtimestamp? (v / 1000)).getD now
      else (fromtimestamp? v).getD now
  | .jbool b => (fromtimestamp? (if b then 1 else 0)).getD now
  | _ => now

/-- One message of the conversation payload: `role` and `content.text`, each
`none` when the corresponding key is absent (the builder skips such messages). -/
structure Msg where
  role : Option String
  contentText : Option String

/-- The S3 conversation payload as read by `MemoryExtractor`: optional
`historicalContext` / `currentContext` message lists, optional `sessionId` /
`actorId` strings and optional `endingTimestamp`.  String-typed fields model
the payload shape the pipeline is written for. -/
structure Payload where
  historicalContext : Option (List Msg)
  currentContext : Option (List Msg)
  sessionId : Option String
  actorId : Option String
  endingTimestamp : Option Json

/-- One line of the conversation transcript: `"role: text\n"` when both keys
are present, nothing otherwise (source lines 114-116, 121-123). -/
def msg_line (m : Msg) : String :=
  match m.role, m.contentText with
  | some r, some t => r ++ ": " ++ t ++ "\n"
  | _, _ => ""

/-- `MemoryExtractor._build_conversation_text` (source lines 107-125). -/
def build_conversation_text (payload : Payload) : String :=
  (match payload.historicalContext with
   | some msgs => "Previous conversation:\n" ++ String.join (msgs.map msg_line)
   | none => "")
  ++
  (match payload.currentContext with
   | some msgs => "\nCurrent conversation:\n" ++ String.join (msgs.map msg_line)
   | none => "")

/-- The fixed extraction prompt built in `MemoryExtractor.extract_memories`
(source lines 67-73). -/
def extraction_prompt (payload : Payload) : String :=
  "Extract user preferences, interests, and facts from this conversation.\nReturn ONLY a valid JSON array with this format:\n[\x7b\"content\": \"detailed description\", \"type\": \"preference|interest|fact\", \"confidence\": 0.0-1.0\x7d]\n\nFocus on extracting specific, meaningful pieces of information that would be useful to remember.\nConversation:\n"
  ++ build_conversation_text payload

/-- A memory record as produced by `MemoryExtractor._format_extracted_memories`
and consumed (and mutated) by `MemoryIngestor.batch_ingest_memories`:
a Python dict with keys `content`, `namespaces`, `memoryStrategyId` (initially
`None`) and `timestamp` (`none` here models the key being absent). -/
structure MemoryRecord where
  content : Json
  namespaces : List String
  memoryStrategyId : Option Json
  timestamp : Option Json

/-- The namespace string interpolated at source line 143:
`/interests/actor/{actorId}/session/{sessionId}`. -/
def mk_namespace (actor_id session_id : String) : String :=
  "/interests/actor/" ++ actor_id ++ "/session/" ++ session_id

/-- The filter applied to each raw model item at source line 137: keep it
exactly when it is a dict that binds both `content` and `type`. -/
def accepts_item : Json → Bool
  | .jobj fields => ((fields.lookup "content").isSome && (fields.lookup "type").isSome)
  | _ => false

/-- The memory dict built at source lines 145-150 for one accepted item.
`now` models `int(time.time())`, the default for a missing `endingTimestamp`. -/
def mk_memory (payload : Payload) (now : Int) (item : Json) : MemoryRecord :=
  { content := (item.getField "content").getD .jnull
    namespaces := [mk_namespace (payload.actorId.getD "unknown-actor")
        (payload.sessionId.getD "unknown-session")]
    memoryStrategyId := none
    timestamp := some (payload.endingTimestamp.getD (.jint now)) }

/-- `MemoryExtractor._format_extracted_memories` (source lines 127-157):
skip every raw item that is not a dict with `content` and `type` keys, and
build a memory record for each remaining one. -/
def format_extracted_memories (extracted_data : List Json) (payload : Payload)
    (now : Int) : List MemoryRecord :=
  extracted_data.filterMap fun item =>
    if accepts_item item then some (mk_memory payload now item) else none

/-- Python `str.find(c)`: index of the first occurrence, `-1` if absent
(source line 91, `extracted_text.find('[')`). -/
def pyFind (s : String) (c : Char) : Int :=
  match s.toList.findIdx? (· == c) with
  | some i => (i : Int)
  | none => -1

/-- Python `str.rfind(c)`: index of the last occurrence, `-1` if absent
(source line 92, `extracted_text.rfind(']')`). -/
def pyRfind (s : String) (c : Char) : Int :=
  match s.toList.reverse.findIdx? (· == c) with
  | some i => ((s.toList.length - 1 - i : Nat) : Int)
  | none => -1

/-- Python slice `s[a:b]` for non-negative bounds. -/
def pySlice (s : String) (a b : Nat) : String :=
  String.mk ((s.toList.drop a).take (b - a))

/-- `MemoryExtractor.extract_memories` (source lines 63-105).

`invokeModel` models the Bedrock `invoke_model` call together with the
response-body unwrapping `response_body['content'][0]['text']`: it receives the
prompt and either returns the raw model text or fails (transport errors and
response-shape errors alike).  `jsonLoadsArr` models `json.loads` applied to
the sliced substring: `none` models the call raising.  The slice starts at a
`'['` and ends right after a `']'`, so a successful `json.loads` yields an
array; its elements are arbitrary JSON values.

Every failure path — a failing model call, no `[` ... `]` span in the text, or
an unparsable slice — is caught by the source's `except` block and yields the
empty list. -/
def extract_memories (invokeModel : String → Except String String)
    (jsonLoadsArr : String → Option (List Json))
    (payload : Payload) (now : Int) : List MemoryRecord :=
  match invokeModel (extraction_prompt payload) with
  | .error _ => []
  | .ok extracted_text =>
      if 0 ≤ pyFind extracted_text '['
          ∧ pyFind extracted_text '[' < pyRfind extracted_text ']' + 1 then
        match jsonLoadsArr (pySlice extracted_text (pyFind extracted_text '[').toNat
            (pyRfind extracted_text ']' + 1).toNat) with
        | some extracted_data => format_extracted_memories extracted_data payload now
        | none => []
      else []

/-- One record of the AgentCore `batch_create_memory_records` request, built at
source lines 179-206: `requestIdentifier` is a fresh UUID string,
`content.text` carries the memory's content value, and `timestamp` (present
exactly when the memory record had one) is the normalized instant in epoch
seconds. -/
structure BatchRecord where
  requestIdentifier : String
  contentText : Json
  namespaces : List String
  memoryStrategyId : Option Json
  timestamp : Option Int

/-- The full `batch_create_memory_records` request (source lines 214-218). -/
structure BatchRequest where
  memoryId : Json
  records : List BatchRecord
  clientToken : String

/-- The dict returned by `batch_ingest_memories` on success:
`{'recordsIngested': n}`. -/
structure IngestResult where
  recordsIngested : Nat

/-- Maps `f` over a list together with the position of each element, starting
at index `i`.  Used to model the loop at source lines 178-208, where iteration
number `j` draws the `j`-th fresh UUID. -/
def mapIdxFrom (f : Nat → α → β) : Nat → List α → List β
  | _, [] => []
  | i, a :: as => f i a :: mapIdxFrom f (i + 1) as

/-- The strategy-id assignment loop at source lines 172-174: overwrite
`memoryStrategyId` of every record in the input list (a mutation the caller
observes, since Python dicts are shared). -/
def updated_records (recs : List MemoryRecord) (strategy_id : Json) :
    List MemoryRecord :=
  recs.map fun r => { r with memoryStrategyId := some strategy_id }

/-- The batch record built for the `i`-th memory record (source lines
179-206); `tokens i` models the `i`-th `str(uuid.uuid4())` draw of the run and
`now` models `datetime.now()` for the timestamp fallback. -/
def mk_batch_record (tokens : Nat → String) (now : Int) (i : Nat)
    (r : MemoryRecord) : BatchRecord :=
  { requestIdentifier := tokens i
    contentText := r.content
    namespaces := r.namespaces
    memoryStrategyId := r.memoryStrategyId
    timestamp := r.timestamp.map fun ts => normalize_timestamp ts now }

/-- The request submitted at source lines 214-218: per-record UUID draws
`0, ..., n-1`, then draw `n` for `clientToken`. -/
def mk_batch_request (memory_id : Json) (recs : List MemoryRecord)
    (strategy_id : Json) (tokens : Nat → String) (now : Int) : BatchRequest :=
  { memoryId := memory_id
    records := mapIdxFrom (mk_batch_record tokens now) 0 (updated_records recs strategy_id)
    clientToken := tokens recs.length }

/-- The outcome of the `try` block at source lines 211-227: a successful
`batch_create_memory_records` call yields `{'recordsIngested': n}` for the `n`
records submitted, and a raising call is re-raised unchanged (`raise`,
line 227). -/
def ingest_outcome (n : Nat) : Except String Unit → Except String IngestResult
  | .ok _ => .ok { recordsIngested := n }
  | .error e => .error e

/-- `MemoryIngestor.batch_ingest_memories` (source lines 166-227).

Returns `(records after the strategy-id mutation, every batch request issued to
the service, outcome)`.  `batchCreate` models
`agentcore_client.batch_create_memory_records`: `.error e` models the SDK call
raising.  The middle component lists each network submission actually
performed, so an empty list means no call was made. -/
def batch_ingest_memories (memory_id : Json) (memory_records : List MemoryRecord)
    (strategy_id : Json) (tokens : Nat → String) (now : Int)
    (batchCreate : BatchRequest → Except String Unit) :
    List MemoryRecord × List BatchRequest × Except String IngestResult :=
  match memory_records with
  | [] => (memory_records, [], .ok { recordsIngested := 0 })
  | _ :: _ =>
      (updated_records memory_records strategy_id,
       [mk_batch_request memory_id memory_records strategy_id tokens now],
       ingest_outcome
         (mk_batch_request memory_id memory_records strategy_id tokens now).records.length
         (batchCreate (mk_batch_request memory_id memory_records strategy_id tokens now)))

/-- One entry of `event['Records']`. -/
structure SqsRecord where
  body : String

/-- The Lambda input event, holding its `Records` list. -/
structure SqsEvent where
  records : List SqsRecord

/-- The `job_metadata` dict built at source lines 32-37; the values are
whatever JSON values the notification carried. -/
structure JobMetadata where
  job_id : Json
  memory_id : Json
  strategy_id : Json
  s3_location : Json

/-- Python `d[k]`: the bound value, a `KeyError` when the key is absent, a
`TypeError` when the value is not a dict. -/
def getKey (j : Json) (k : String) : Except String Json :=
  match j with
  | .jobj fields =>
      match fields.lookup k with
      | some v => .ok v
      | none => .error ("KeyError: " ++ k)
  | _ => .error ("TypeError: value is not a dict, key " ++ k)

/-- Coerces a JSON value to the string `json.loads` expects; non-strings model
the `TypeError` that `json.loads` raises on them. -/
def asString : Json → Except String String
  | .jstr s => .ok s
  | _ => .error "TypeError: expected a string"

/-- The body of `NotificationHandler.process_sqs_event` after the record-count
check (source lines 25-42): unwrap the two serialization layers, read the four
job fields and download the payload.  `jsonLoads` models `json.loads` on the
record body and on the inner `Message` string; `downloadPayload` models
`NotificationHandler._download_payload` (urlparse + S3 `get_object` +
`json.loads`), receiving the `s3PayloadLocation` value. -/
def parse_record (jsonLoads : String → Except String Json)
    (downloadPayload : Json → Except String Payload)
    (record : SqsRecord) : Except String (JobMetadata × Payload) := do
  let message ← jsonLoads record.body
  let msgStr ← asString (← getKey message "Message")
  let sqs_message ← jsonLoads msgStr
  let job_id ← getKey sqs_message "jobId"
  let memory_id ← getKey sqs_message "memoryId"
  let strategy_id ← getKey sqs_message "strategyId"
  let s3_location ← getKey sqs_message "s3PayloadLocation"
  let payload ← downloadPayload s3_location
  pure ({ job_id := job_id, memory_id := memory_id, strategy_id := strategy_id,
          s3_location := s3_location }, payload)

/-- `NotificationHandler.process_sqs_event` (source lines 19-42): raise
`ValueError` unless `event['Records']` holds exactly one record, then parse
that record. -/
def process_sqs_event (jsonLoads : String → Except String Json)
    (downloadPayload : Json → Except String Payload)
    (event : SqsEvent) : Except String (JobMetadata × Payload) :=
  match event.records with
  | [record] => parse_record jsonLoads downloadPayload record
  | rs => .error ("Expected 1 record, got " ++ toString rs.length)

/-- The handler's return value.  `body` is kept as the JSON object handed to
`json.dumps` (serialization is treated as the identity on the abstract value). -/
structure LambdaResponse where
  statusCode : Nat
  body : Json

/-- `lambda_handler` (source lines 230-279): run the pipeline and map every
raised exception to a 500 response with an `error` body; a run whose extraction
produced nothing returns 200 with zero counts and no ingestion call. -/
def lambda_handler (jsonLoads : String → Except String Json)
    (downloadPayload : Json → Except String Payload)
    (invokeModel : String → Except String String)
    (jsonLoadsArr : String → Option (List Json))
    (batchCreate : BatchRequest → Except String Unit)
    (tokens : Nat → String) (now : Int) (event : SqsEvent) : LambdaResponse :=
  match process_sqs_event jsonLoads downloadPayload event with
  | .error e => { statusCode := 500, body := .jobj [("error", .jstr e)] }
  | .ok (job_metadata, payload) =>
      match extract_memories invokeModel jsonLoadsArr payload now with
      | [] =>
          { statusCode := 200
            body := .jobj [("jobId", job_metadata.job_id),
              ("extractedMemories", .jint 0), ("ingestedRecords", .jint 0)] }
      | extracted_memories =>
          match (batch_ingest_memories job_metadata.memory_id extracted_memories
              job_metadata.strategy_id tokens now batchCreate).2.2 with
          | .ok ingest_result =>
              { statusCode := 200
                body := .jobj [("jobId", job_metadata.job_id),
                  ("extractedMemories", .jint extracted_memories.length),
                  ("ingestedRecords", .jint ingest_result.recordsIngested)] }
          | .error e => { statusCode := 500, body := .jobj [("error", .jstr e)] }

/-- Whether `pat` occurs at the start of `s` (on character lists). -/
def charsStartWith : List Char → List Char → Bool
  | _, [] => true
  | [], _ :: _ => false
  | c :: cs, p :: ps => c == p && charsStartWith cs ps

/-- Whether `pat` occurs anywhere in `s` (on character lists). -/
def charsContain : List Char → List Char → Bool
  | [], pat => pat.isEmpty
  | c :: cs, pat => charsStartWith (c :: cs) pat || charsContain cs pat

/-- Substring containment on strings, used to state "the namespace contains
the identifier". -/
def strContains (s sub : String) : Bool :=
  charsContain s.toList sub.toList

/-- Follows the claim's words, for comparison with the records the code
accepts: an extracted fact has a string `content`, a `type` among
`preference` / `interest` / `fact`, and a `confidence` between 0 and 1
(integer-valued numbers in this model). -/
def claimed_fact_wellformed : Json → Bool
  | .jobj fields =>
      (match fields.lookup "content" with
       | some (.jstr _) => true
       | _ => false)
      && (match fields.lookup "type" with
          | some (.jstr t) => (t == "preference" || t == "interest" || t == "fact")
          | _ => false)
      && (match fields.lookup "confidence" with
          | some (.jint c) => (decide (0 ≤ c) && decide (c ≤ 1))
          | _ => false)
  | _ => false

/-- A concrete conversation payload used to evaluate the pipeline on explicit
inputs. -/
def cex_payload : Payload :=
  { historicalContext := none
    currentContext := none
    sessionId := some "s1"
    actorId := some "alice"
    endingTimestamp := some (.jint 1700000000) }

/-- A raw model item the extractor accepts: a dict with `content` and `type`. -/
def cex_item : Json :=
  .jobj [("content", .jstr "likes pizza"), ("type", .jstr "preference")]

/-- A raw model item whose `type` is outside the claimed enum and whose
`confidence` is outside `[0, 1]`. -/
def cex8_item : Json :=
  .jobj [("content", .jstr "x"), ("type", .jstr "banana"), ("confidence", .jint 5)]

/-- A `json.loads` oracle for concrete runs: parses the two notification
layers of one fixed well-formed notification and rejects anything else. -/
def w_jsonLoads : String → Except String Json := fun s =>
  if s = "body1" then .ok (.jobj [("Message", .jstr "msg1")])
  else if s = "msg1" then
    .ok (.jobj [("jobId", .jstr "job-1"), ("memoryId", .jstr "mem-1"),
      ("strategyId", .jstr "strat-1"), ("s3PayloadLocation", .jstr "s3://b/k")])
  else .error "Expecting value: line 1 column 1 (char 0)"

/-- A payload-download oracle that returns the concrete payload. -/
def w_download : Json → Except String Payload := fun _ => .ok cex_payload

/-- The concrete single-record Lambda event matching `w_jsonLoads`. -/
def w_event : SqsEvent := { records := [{ body := "body1" }] }

/-- The job metadata `w_jsonLoads` produces for `w_event`. -/
def w_jm : JobMetadata :=
  { job_id := .jstr "job-1", memory_id := .jstr "mem-1",
    strategy_id := .jstr "strat-1", s3_location := .jstr "s3://b/k" }

/-- A model oracle whose answer carries a `[` ... `]` span. -/
def w_invokeOk : String → Except String String := fun _ => .ok "[x]"

/-- A model oracle whose call raises. -/
def w_invokeFail : String → Except String String := fun _ => .error "model unavailable"

/-- A model oracle whose answer carries no `[` ... `]` span. -/
def w_invokeNoArr : String → Except String String := fun _ => .ok "no array here"

/-- A `json.loads` oracle for the sliced array that returns one accepted item. -/
def w_loadsArr : String → Option (List Json) := fun _ => some [cex_item]

/-- A `json.loads` oracle for the sliced array whose call raises. -/
def w_loadsNone : String → Option (List Json) := fun _ => none

/-- A batch-write oracle that succeeds. -/
def w_bcOk : BatchRequest → Except String Unit := fun _ => .ok ()

/-- A batch-write oracle that raises. -/
def w_bcFail : BatchRequest → Except String Unit := fun _ => .error "boom"

/-- A degenerate UUID supply for runs whose token values do not matter. -/
def w_tokens : Nat → String := fun _ => "u"

/-- A UUID supply whose draws are pairwise distinct: draw `n` is the string
of `n + 1` letters `a`. -/
def w9_tok1 : Nat → String := fun n => String.mk ('a' :: List.replicate n 'a')

/-- A second pairwise-distinct UUID supply, disjoint from `w9_tok1`: draw `n`
is the string of `n + 1` letters `b`. -/
def w9_tok2 : Nat → String := fun n => String.mk ('b' :: List.replicate n 'b')

/-- Two concrete memory records for ingestion runs. -/
def w9_recs : List MemoryRecord :=
  [mk_memory cex_payload 0 cex_item,
   { mk_memory cex_payload 0 cex_item with content := .jstr "other" }]

/-! Helper lemmas about `mapIdxFrom` and substring containment. -/

/-- `mapIdxFrom` preserves length. -/
theorem length_mapIdxFrom (f : Nat → α → β) :
    ∀ (i : Nat) (l : List α), (mapIdxFrom f i l).length = l.length
  | _, [] => rfl
  | i, _ :: as => by simp [mapIdxFrom, length_mapIdxFrom f (i + 1) as]

/-- Every element of `mapIdxFrom f i l` is `f j a` for some index `j ≥ i` and
some element `a` of `l`. -/
theorem mem_mapIdxFrom {f : Nat → α → β} {b : β} :
    ∀ {i : Nat} {l : List α}, b ∈ mapIdxFrom f i l →
      ∃ j a, i ≤ j ∧ a ∈ l ∧ b = f j a := by
  intro i l
  induction l generalizing i with
  | nil => intro h; simp [mapIdxFrom] at h
  | cons a as ih =>
      intro h
      rcases List.mem_cons.mp h with h1 | h2
      · exact ⟨i, a, le_refl i, List.mem_cons_self a as, h1⟩
      · obtain ⟨j, a', hij, ha', hb⟩ := ih h2
        exact ⟨j, a', Nat.le_of_succ_le hij, List.mem_cons_of_mem a ha', hb⟩

/-- `mapIdxFrom f i l` is pairwise related whenever `f` relates every pair of
values built at distinct increasing indices. -/
theorem pairwise_mapIdxFrom {f : Nat → α → β} {R : β → β → Prop}
    (h : ∀ i j a b, i < j → R (f i a) (f j b)) :
    ∀ (i : Nat) (l : List α), (mapIdxFrom f i l).Pairwise R := by
  intro i l
  induction l generalizing i with
  | nil => exact List.Pairwise.nil
  | cons a as ih =>
      refine List.Pairwise.cons ?_ (ih (i + 1))
      intro b hb
      obtain ⟨j, a', hij, _, hb'⟩ := mem_mapIdxFrom hb
      exact hb' ▸ h i j a a' (Nat.lt_of_succ_le hij)

/-- Mapping after `mapIdxFrom` composes into the index function. -/
theorem map_mapIdxFrom (g : β → γ) (f : Nat → α → β) :
    ∀ (i : Nat) (l : List α),
      (mapIdxFrom f i l).map g = mapIdxFrom (fun j a => g (f j a)) i l
  | _, [] => rfl
  | i, a :: as => by simp [mapIdxFrom, map_mapIdxFrom g f (i + 1) as]

/-- An index-independent `mapIdxFrom` is an ordinary map. -/
theorem mapIdxFrom_const (g : α → β) :
    ∀ (i : Nat) (l : List α), mapIdxFrom (fun _ a => g a) i l = l.map g
  | _, [] => rfl
  | i, a :: as => by simp [mapIdxFrom, mapIdxFrom_const g (i + 1) as]

/-- A list starts with itself followed by anything. -/
theorem charsStartWith_append (l t : List Char) :
    charsStartWith (l ++ t) l = true := by
  induction l with
  | nil => cases t <;> rfl
  | cons c cs ih => simp [charsStartWith, ih]

/-- Containment follows from being an initial segment. -/
theorem charsContain_of_startWith {s pat : List Char}
    (h : charsStartWith s pat = true) : charsContain s pat = true := by
  cases s with
  | nil =>
      cases pat with
      | nil => rfl
      | cons p ps => simp [charsStartWith] at h
  | cons c cs => simp [charsContain, h]

/-- Containment is stable under consing on the left. -/
theorem charsContain_cons {s pat : List Char} (c : Char)
    (h : charsContain s pat = true) : charsContain (c :: s) pat = true := by
  simp [charsContain, h]

/-- Containment is stable under prepending a list. -/
theorem charsContain_append_left (a : List Char) {s pat : List Char}
    (h : charsContain s pat = true) : charsContain (a ++ s) pat = true := by
  induction a with
  | nil => exact h
  | cons c cs ih => exact charsContain_cons c ih

/-- The namespace built at source line 143 contains the actor id. -/
theorem strContains_namespace_actor (a s : String) :
    strContains (mk_namespace a s) a = true := by
  show charsContain (mk_namespace a s).data a.data = true
  have : (mk_namespace a s).data
      = "/interests/actor/".data ++ (a.data ++ ("/session/".data ++ s.data)) := by
    simp [mk_namespace, String.data_append]
  rw [this]
  exact charsContain_append_left _
    (charsContain_of_startWith (charsStartWith_append _ _))

/-- The namespace built at source line 143 contains the session id. -/
theorem strContains_namespace_session (a s : String) :
    strContains (mk_namespace a s) s = true := by
  show charsContain (mk_namespace a s).data s.data = true
  have : (mk_namespace a s).data
      = ("/interests/actor/".data ++ a.data ++ "/session/".data) ++ (s.data ++ []) := by
    simp [mk_namespace, String.data_append]
  rw [this]
  exact charsContain_append_left _
    (charsContain_of_startWith (charsStartWith_append _ _))

/-- The batch records of a non-empty ingestion run, and the single request the
run issues. -/
theorem batch_trace_cons (memory_id : Json) (r : MemoryRecord)
    (rs : List MemoryRecord) (sid : Json) (tokens : Nat → String) (now : Int)
    (bc : BatchRequest → Except String Unit) :
    (batch_ingest_memories memory_id (r :: rs) sid tokens now bc).2.1
      = [mk_batch_request memory_id (r :: rs) sid tokens now] := rfl

/-- The timestamps of the batch records are exactly the source records'
timestamps, normalized. -/
theorem batch_records_timestamps (tokens : Nat → String) (now : Int) (sid : Json) :
    ∀ (i : Nat) (recs : List MemoryRecord),
      (mapIdxFrom (mk_batch_record tokens now) i (updated_records recs sid)).map
          (fun b => b.timestamp)
        = recs.map (fun r => r.timestamp.map fun ts => normalize_timestamp ts now)
  | _, [] => rfl
  | i, r :: rs => by
      simp only [updated_records, List.map_cons, mapIdxFrom, mk_batch_record]
      refine congrArg (List.cons _) ?_
      simpa [updated_records] using batch_records_timestamps tokens now sid (i + 1) rs

/-! Claim theorems. -/

/-- C6: for every memory id and strategy id, `batch_ingest_memories` applied to
an empty fact list returns `recordsIngested = 0`, issues no batch-write
request, and does not fail. -/
theorem C6_empty_ingest_noop (memory_id strategy_id : Json)
    (tokens : Nat → String) (now : Int)
    (batchCreate : BatchRequest → Except String Unit) :
    batch_ingest_memories memory_id [] strategy_id tokens now batchCreate
      = ([], [], .ok { recordsIngested := 0 }) := rfl

/-- C7: `process_sqs_event` fails with an error for every event whose
`Records` list has zero or more than one entry, and proceeds to parsing the
single record exactly when one record is present. -/
theorem C7_single_record_required (jsonLoads : String → Except String Json)
    (downloadPayload : Json → Except String Payload) (event : SqsEvent) :
    (event.records.length ≠ 1 →
      process_sqs_event jsonLoads downloadPayload event
        = .error ("Expected 1 record, got " ++ toString event.records.length))
    ∧ (∀ record, event.records = [record] →
      process_sqs_event jsonLoads downloadPayload event
        = parse_record jsonLoads downloadPayload record) := by
  obtain ⟨records⟩ := event
  constructor
  · intro hne
    match records with
    | [] => rfl
    | [r] => exact absurd rfl hne
    | r1 :: r2 :: rs => rfl
  · intro record hrec
    simp only at hrec
    subst hrec
    rfl

/-- Witness for C7 at concrete zero-, two- and one-record events. -/
theorem C7_witness :
    (({ records := [] } : SqsEvent).records.length ≠ 1
      ∧ process_sqs_event w_jsonLoads w_download { records := [] }
          = .error ("Expected 1 record, got "
              ++ toString ({ records := [] } : SqsEvent).records.length))
    ∧ (({ records := [⟨"b1"⟩, ⟨"b2"⟩] } : SqsEvent).records.length ≠ 1
      ∧ process_sqs_event w_jsonLoads w_download { records := [⟨"b1"⟩, ⟨"b2"⟩] }
          = .error ("Expected 1 record, got "
              ++ toString ({ records := [⟨"b1"⟩, ⟨"b2"⟩] } : SqsEvent).records.length))
    ∧ (({ records := [⟨"b1"⟩] } : SqsEvent).records = [⟨"b1"⟩]
      ∧ process_sqs_event w_jsonLoads w_download { records := [⟨"b1"⟩] }
          = parse_record w_jsonLoads w_download ⟨"b1"⟩) :=
  ⟨⟨by decide, (C7_single_record_required w_jsonLoads w_download _).1 (by decide)⟩,
   ⟨by decide, (C7_single_record_required w_jsonLoads w_download _).1 (by decide)⟩,
   ⟨rfl, (C7_single_record_required w_jsonLoads w_download _).2 ⟨"b1"⟩ rfl⟩⟩

/-- C2, counterexample: the claim's 13-digit rule disagrees with the code on
the 11-digit timestamp 20000000000, which the code divides by 1000 (it is
greater than 10000000000) while the claim interprets it as seconds. -/
theorem C2_counterexample :
    digitCount 20000000000 ≠ 13
    ∧ normalize_timestamp (.jint 20000000000) 0 = 20000000
    ∧ claimed_normalize_timestamp (.jint 20000000000) 0 = 20000000000
    ∧ (20000000 : Int) ≠ 20000000000 := by
  refine ⟨by decide, by decide, by decide, by decide⟩

/-- C2, amended: an integer timestamp strictly greater than 10000000000 is
divided by 1000 and interpreted as milliseconds; any other integer is
interpreted as seconds; a non-numeric timestamp falls back to the current
wall-clock time without failing; 1700000000000 and 1700000000 yield the same
wall-clock second; and within `batch_ingest_memories` every issued batch
record carries exactly the normalized timestamp of its source record. -/
theorem C2_amended_normalization :
    (∀ (v : Int) (now : Int), 10000000000 < v →
      normalize_timestamp (.jint v) now = (fromtimestamp? (v / 1000)).getD now)
    ∧ (∀ (v : Int) (now : Int), ¬ 10000000000 < v →
      normalize_timestamp (.jint v) now = (fromtimestamp? v).getD now)
    ∧ (∀ (s : String) (now : Int), normalize_timestamp (.jstr s) now = now)
    ∧ (∀ now : Int, normalize_timestamp (.jint 1700000000000) now
        = normalize_timestamp (.jint 1700000000) now)
    ∧ (∀ (memory_id : Json) (recs : List MemoryRecord) (strategy_id : Json)
        (tokens : Nat → String) (now : Int)
        (bc : BatchRequest → Except String Unit) (req : BatchRequest),
        req ∈ (batch_ingest_memories memory_id recs strategy_id tokens now bc).2.1 →
        req.records.map (fun b => b.timestamp)
          = recs.map (fun r => r.timestamp.map fun ts => normalize_timestamp ts now)) := by
  refine ⟨?_, ?_, ?_, ?_, ?_⟩
  · intro v now hv
    simp [normalize_timestamp, hv]
  · intro v now hv
    simp [normalize_timestamp, hv]
  · intro s now
    rfl
  · intro now
    rfl
  · intro memory_id recs strategy_id tokens now bc req hreq
    match recs with
    | [] => simp [batch_ingest_memories] at hreq
    | r :: rs =>
        rw [batch_trace_cons] at hreq
        rw [List.mem_singleton.mp hreq]
        exact batch_records_timestamps tokens now strategy_id 0 (r :: rs)

/-- Witness for C2 at the concrete timestamps 20000000000, 5, `"abc"` and a
concrete one-record ingestion run. -/
theorem C2_witness :
    ((10000000000 : Int) < 20000000000
      ∧ normalize_timestamp (.jint 20000000000) 7
          = (fromtimestamp? ((20000000000 : Int) / 1000)).getD 7)
    ∧ (¬ (10000000000 : Int) < 5
      ∧ normalize_timestamp (.jint 5) 7 = (fromtimestamp? (5 : Int)).getD 7)
    ∧ normalize_timestamp (.jstr "abc") 7 = 7
    ∧ normalize_timestamp (.jint 1700000000000) 7
        = normalize_timestamp (.jint 1700000000) 7
    ∧ (mk_batch_request (.jstr "mem-1") [mk_memory cex_payload 0 cex_item]
          (.jstr "strat-1") w_tokens 0
        ∈ (batch_ingest_memories (.jstr "mem-1") [mk_memory cex_payload 0 cex_item]
            (.jstr "strat-1") w_tokens 0 w_bcOk).2.1
      ∧ (mk_batch_request (.jstr "mem-1") [mk_memory cex_payload 0 cex_item]
            (.jstr "strat-1") w_tokens 0).records.map (fun b => b.timestamp)
          = [mk_memory cex_payload 0 cex_item].map
              (fun r => r.timestamp.map fun ts => normalize_timestamp ts 0)) :=
  ⟨⟨by decide, C2_amended_normalization.1 20000000000 7 (by decide)⟩,
   ⟨by decide, C2_amended_normalization.2.1 5 7 (by decide)⟩,
   C2_amended_normalization.2.2.1 "abc" 7,
   C2_amended_normalization.2.2.2.1 7,
   ⟨List.mem_singleton.mpr rfl,
    C2_amended_normalization.2.2.2.2 (.jstr "mem-1") [mk_memory cex_payload 0 cex_item]
      (.jstr "strat-1") w_tokens 0 w_bcOk _ (List.mem_singleton.mpr rfl)⟩⟩

/-- C8, counterexample: a raw model item whose `type` is outside
`{preference, interest, fact}` and whose `confidence` is outside `[0, 1]` is
still turned into a memory record — the extractor checks only that `content`
and `type` keys exist. -/
theorem C8_counterexample :
    claimed_fact_wellformed cex8_item = false
    ∧ cex8_item.getField "type" = some (.jstr "banana")
    ∧ cex8_item.getField "confidence" = some (.jint 5)
    ∧ (format_extracted_memories [cex8_item] cex_payload 0).length = 1
    ∧ (format_extracted_memories [cex8_item] cex_payload 0).map (fun m => m.content)
        = [.jstr "x"] :=
  ⟨by decide, rfl, rfl, by decide, rfl⟩

/-- C8, amended: the extractor keeps exactly the raw items that are JSON
objects binding both `content` and `type`, and builds each memory record from
the kept item's `content`; the `type` and `confidence` values are neither
validated against the claimed enum and range nor retained in the produced
record. -/
theorem C8_amended_item_filtering (data : List Json) (payload : Payload)
    (now : Int) :
    format_extracted_memories data payload now
      = (data.filter accepts_item).map (mk_memory payload now) := by
  induction data with
  | nil => rfl
  | cons item rest ih =>
      by_cases h : accepts_item item = true
      · simp [format_extracted_memories, List.filterMap_cons, List.filter_cons, h] at ih ⊢
        exact ih
      · simp [format_extracted_memories, List.filterMap_cons, List.filter_cons, h] at ih ⊢
        exact ih

/-- Distinct replicate-based tokens of one supply differ (their lengths do). -/
theorem replicate_token_ne (c : Char) {i j : Nat} (h : i ≠ j) :
    String.mk (c :: List.replicate i c) ≠ String.mk (c :: List.replicate j c) := by
  intro hc
  apply h
  have hdata : c :: List.replicate i c = c :: List.replicate j c := by
    injection hc
  have hlen := congrArg List.length hdata
  simpa using hlen

/-- Tokens starting with different characters differ. -/
theorem token_head_ne {c d : Char} (hcd : c ≠ d) (l1 l2 : List Char) :
    String.mk (c :: l1) ≠ String.mk (d :: l2) := by
  intro h
  injection h with hdata
  injection hdata with h1 h2
  exact hcd h1

/-- C10: calling `batch_ingest_memories` with a non-empty record list mutates
the caller's input: after the call every record's `memoryStrategyId` is the
given strategy id, and no other field of any record has changed. -/
theorem C10_strategy_id_mutation (memory_id : Json) (recs : List MemoryRecord)
    (strategy_id : Json) (tokens : Nat → String) (now : Int)
    (bc : BatchRequest → Except String Unit) (hne : recs ≠ []) :
    (batch_ingest_memories memory_id recs strategy_id tokens now bc).1
        = recs.map (fun r => { r with memoryStrategyId := some strategy_id })
    ∧ ∀ r ∈ (batch_ingest_memories memory_id recs strategy_id tokens now bc).1,
        r.memoryStrategyId = some strategy_id := by
  cases recs with
  | nil => exact absurd rfl hne
  | cons r rs =>
      refine ⟨rfl, ?_⟩
      intro x hx
      have hmem : x ∈ (r :: rs).map
          (fun r => { r with memoryStrategyId := some strategy_id }) := hx
      obtain ⟨r', _, hx'⟩ := List.mem_map.mp hmem
      rw [← hx']

/-- Witness for C10 at a concrete two-record ingestion run. -/
theorem C10_witness :
    w9_recs ≠ []
    ∧ ((batch_ingest_memories (.jstr "mem-1") w9_recs (.jstr "strat-1") w_tokens 0 w_bcOk).1
        = w9_recs.map (fun r => { r with memoryStrategyId := some (.jstr "strat-1") })
      ∧ ∀ r ∈ (batch_ingest_memories (.jstr "mem-1") w9_recs (.jstr "strat-1")
            w_tokens 0 w_bcOk).1,
          r.memoryStrategyId = some (.jstr "strat-1")) :=
  ⟨by simp [w9_recs],
   C10_strategy_id_mutation (.jstr "mem-1") w9_recs (.jstr "strat-1") w_tokens 0 w_bcOk
     (by simp [w9_recs])⟩

/-- C9: under a fresh UUID supply (pairwise-distinct draws), all
`requestIdentifier`s of one submission attempt are pairwise distinct; and two
runs over the same records whose UUID supplies are disjoint ("distinct
randomness") share no `requestIdentifier`. -/
theorem C9_fresh_idempotency_tokens (memory_id : Json) (recs : List MemoryRecord)
    (strategy_id : Json) (tokens1 tokens2 : Nat → String) (now1 now2 : Int)
    (bc1 bc2 : BatchRequest → Except String Unit)
    (hfresh : ∀ i j : Nat, i ≠ j → tokens1 i ≠ tokens1 j)
    (hdistinct : ∀ i j : Nat, tokens1 i ≠ tokens2 j) :
    (∀ req ∈ (batch_ingest_memories memory_id recs strategy_id tokens1 now1 bc1).2.1,
      req.records.Pairwise (fun a b => a.requestIdentifier ≠ b.requestIdentifier))
    ∧ (∀ req1 ∈ (batch_ingest_memories memory_id recs strategy_id tokens1 now1 bc1).2.1,
       ∀ req2 ∈ (batch_ingest_memories memory_id recs strategy_id tokens2 now2 bc2).2.1,
       ∀ r1 ∈ req1.records, ∀ r2 ∈ req2.records,
        r1.requestIdentifier ≠ r2.requestIdentifier) := by
  cases recs with
  | nil =>
      constructor
      · intro req hreq
        simp [batch_ingest_memories] at hreq
      · intro req1 hreq1
        simp [batch_ingest_memories] at hreq1
  | cons r rs =>
      constructor
      · intro req hreq
        rw [batch_trace_cons] at hreq
        rw [List.mem_singleton.mp hreq]
        exact @pairwise_mapIdxFrom MemoryRecord BatchRecord
          (mk_batch_record tokens1 now1)
          (fun a b => a.requestIdentifier ≠ b.requestIdentifier)
          (fun i j a b hij => hfresh i j (Nat.ne_of_lt hij)) 0 _
      · intro req1 hreq1 req2 hreq2 r1 hr1 r2 hr2
        rw [batch_trace_cons] at hreq1 hreq2
        rw [List.mem_singleton.mp hreq1] at hr1
        rw [List.mem_singleton.mp hreq2] at hr2
        obtain ⟨j1, a1, _, _, hb1⟩ := mem_mapIdxFrom hr1
        obtain ⟨j2, a2, _, _, hb2⟩ := mem_mapIdxFrom hr2
        rw [hb1, hb2]
        exact hdistinct j1 j2

/-- Witness for C9: two concrete runs over the same two records with the
disjoint fresh supplies `w9_tok1` and `w9_tok2`. -/
theorem C9_witness :
    (∀ i j : Nat, i ≠ j → w9_tok1 i ≠ w9_tok1 j)
    ∧ (∀ i j : Nat, w9_tok1 i ≠ w9_tok2 j)
    ∧ (∀ req ∈ (batch_ingest_memories (.jstr "mem-1") w9_recs (.jstr "strat-1")
          w9_tok1 0 w_bcOk).2.1,
        req.records.Pairwise (fun a b => a.requestIdentifier ≠ b.requestIdentifier))
    ∧ (∀ req1 ∈ (batch_ingest_memories (.jstr "mem-1") w9_recs (.jstr "strat-1")
          w9_tok1 0 w_bcOk).2.1,
       ∀ req2 ∈ (batch_ingest_memories (.jstr "mem-1") w9_recs (.jstr "strat-1")
          w9_tok2 0 w_bcOk).2.1,
       ∀ r1 ∈ req1.records, ∀ r2 ∈ req2.records,
        r1.requestIdentifier ≠ r2.requestIdentifier) := by
  have hfresh : ∀ i j : Nat, i ≠ j → w9_tok1 i ≠ w9_tok1 j :=
    fun i j h => replicate_token_ne 'a' h
  have hdistinct : ∀ i j : Nat, w9_tok1 i ≠ w9_tok2 j :=
    fun i j => token_head_ne (by decide) _ _
  have h := C9_fresh_idempotency_tokens (.jstr "mem-1") w9_recs (.jstr "strat-1")
    w9_tok1 w9_tok2 0 0 w_bcOk w_bcOk hfresh hdistinct
  exact ⟨hfresh, hdistinct, h.1, h.2⟩

/-- C4: the extractor fails open — a raising model call, a response with no
`[` ... `]` span, and a located substring that `json.loads` rejects each
yield the empty list instead of an exception. -/
theorem C4_extractor_fails_open (invokeModel : String → Except String String)
    (jsonLoadsArr : String → Option (List Json)) (payload : Payload) (now : Int) :
    (∀ e, invokeModel (extraction_prompt payload) = .error e →
      extract_memories invokeModel jsonLoadsArr payload now = [])
    ∧ (∀ text, invokeModel (extraction_prompt payload) = .ok text →
      ¬ (0 ≤ pyFind text '[' ∧ pyFind text '[' < pyRfind text ']' + 1) →
      extract_memories invokeModel jsonLoadsArr payload now = [])
    ∧ (∀ text, invokeModel (extraction_prompt payload) = .ok text →
      (0 ≤ pyFind text '[' ∧ pyFind text '[' < pyRfind text ']' + 1) →
      jsonLoadsArr (pySlice text (pyFind text '[').toNat
          (pyRfind text ']' + 1).toNat) = none →
      extract_memories invokeModel jsonLoadsArr payload now = []) := by
  refine ⟨?_, ?_, ?_⟩
  · intro e he
    unfold extract_memories
    rw [he]
  · intro text ht hcond
    unfold extract_memories
    rw [ht]
    exact if_neg hcond
  · intro text ht hcond hparse
    unfold extract_memories
    rw [ht]
    show (if 0 ≤ pyFind text '[' ∧ pyFind text '[' < pyRfind text ']' + 1 then
        match jsonLoadsArr (pySlice text (pyFind text '[').toNat
            (pyRfind text ']' + 1).toNat) with
        | some extracted_data => format_extracted_memories extracted_data payload now
        | none => []
      else []) = []
    rw [if_pos hcond, hparse]

/-- Witness for C4 at a raising model oracle, a bracketless response and an
unparsable bracket span. -/
theorem C4_witness :
    (w_invokeFail (extraction_prompt cex_payload) = .error "model unavailable"
      ∧ extract_memories w_invokeFail w_loadsArr cex_payload 0 = [])
    ∧ (w_invokeNoArr (extraction_prompt cex_payload) = .ok "no array here"
      ∧ ¬ (0 ≤ pyFind "no array here" '['
          ∧ pyFind "no array here" '[' < pyRfind "no array here" ']' + 1)
      ∧ extract_memories w_invokeNoArr w_loadsArr cex_payload 0 = [])
    ∧ (w_invokeOk (extraction_prompt cex_payload) = .ok "[x]"
      ∧ (0 ≤ pyFind "[x]" '[' ∧ pyFind "[x]" '[' < pyRfind "[x]" ']' + 1)
      ∧ w_loadsNone (pySlice "[x]" (pyFind "[x]" '[').toNat
          (pyRfind "[x]" ']' + 1).toNat) = none
      ∧ extract_memories w_invokeOk w_loadsNone cex_payload 0 = []) :=
  ⟨⟨rfl, (C4_extractor_fails_open w_invokeFail w_loadsArr cex_payload 0).1
      "model unavailable" rfl⟩,
   ⟨rfl, by decide,
    (C4_extractor_fails_open w_invokeNoArr w_loadsArr cex_payload 0).2.1
      "no array here" rfl (by decide)⟩,
   ⟨rfl, by decide, rfl,
    (C4_extractor_fails_open w_invokeOk w_loadsNone cex_payload 0).2.2
      "[x]" rfl (by decide) rfl⟩⟩

/-- C3, counterexample: a concrete end-to-end run whose job target id is
`mem-123` produces exactly one ingestion record, and its namespace
`/interests/actor/alice/session/s1` does not contain the target id — the
namespace is derived from the payload's `actorId` and `sessionId`, not from
the job's target resource id. -/
theorem C3_counterexample :
    ((batch_ingest_memories (.jstr "mem-123")
        (format_extracted_memories [cex_item] cex_payload 0) (.jstr "strat-1")
        w_tokens 0 w_bcOk).2.1.map
          (fun req => req.records.map (fun r => r.namespaces)))
      = [[["/interests/actor/alice/session/s1"]]]
    ∧ strContains "/interests/actor/alice/session/s1" "mem-123" = false :=
  ⟨rfl, by decide⟩

/-- C3, amended: every fact produced by the extractor is tagged with the
namespace built from the payload's `actorId` and `sessionId` (with
`unknown-actor` / `unknown-session` defaults), and every ingestion record
derived from it carries exactly that namespace, which contains the actor and
session identifiers (not, in general, the job's target id). -/
theorem C3_amended_namespace (data : List Json) (p : Payload) (nowI : Int)
    (memory_id strategy_id : Json) (tokens : Nat → String) (now : Int)
    (bc : BatchRequest → Except String Unit) (req : BatchRequest)
    (hreq : req ∈ (batch_ingest_memories memory_id
        (format_extracted_memories data p nowI) strategy_id tokens now bc).2.1)
    (r : BatchRecord) (hr : r ∈ req.records) :
    r.namespaces = [mk_namespace (p.actorId.getD "unknown-actor")
        (p.sessionId.getD "unknown-session")]
    ∧ strContains (mk_namespace (p.actorId.getD "unknown-actor")
        (p.sessionId.getD "unknown-session")) (p.actorId.getD "unknown-actor") = true
    ∧ strContains (mk_namespace (p.actorId.getD "unknown-actor")
        (p.sessionId.getD "unknown-session")) (p.sessionId.getD "unknown-session")
        = true := by
  refine ⟨?_, strContains_namespace_actor _ _, strContains_namespace_session _ _⟩
  cases hfmt : format_extracted_memories data p nowI with
  | nil =>
      rw [hfmt] at hreq
      simp [batch_ingest_memories] at hreq
  | cons m ms =>
      rw [hfmt, batch_trace_cons] at hreq
      rw [List.mem_singleton.mp hreq] at hr
      obtain ⟨j, a, _, ha, hb⟩ := mem_mapIdxFrom hr
      obtain ⟨a', ha', hua⟩ := List.mem_map.mp ha
      have ha'' : a' ∈ format_extracted_memories data p nowI := by
        rw [hfmt]; exact ha'
      obtain ⟨item, _, hmk⟩ := List.mem_filterMap.mp ha''
      have hmm : mk_memory p nowI item = a' := by
        by_cases hacc : accepts_item item = true
        · rw [if_pos hacc] at hmk
          exact Option.some.inj hmk
        · rw [if_neg hacc] at hmk
          cases hmk
      rw [hb]
      show a.namespaces = _
      rw [← hua]
      show a'.namespaces = _
      rw [← hmm]
      rfl

/-- Witness for C3 at the concrete one-fact run of `C3_counterexample`'s
shape. -/
theorem C3_witness :
    (mk_batch_request (.jstr "mem-1")
        (format_extracted_memories [cex_item] cex_payload 0) (.jstr "strat-1")
        w_tokens 0
      ∈ (batch_ingest_memories (.jstr "mem-1")
          (format_extracted_memories [cex_item] cex_payload 0) (.jstr "strat-1")
          w_tokens 0 w_bcOk).2.1)
    ∧ (mk_batch_record w_tokens 0 0
          { mk_memory cex_payload 0 cex_item with
              memoryStrategyId := some (.jstr "strat-1") }
        ∈ (mk_batch_request (.jstr "mem-1")
            (format_extracted_memories [cex_item] cex_payload 0) (.jstr "strat-1")
            w_tokens 0).records)
    ∧ ((mk_batch_record w_tokens 0 0
          { mk_memory cex_payload 0 cex_item with
              memoryStrategyId := some (.jstr "strat-1") }).namespaces
          = [mk_namespace "alice" "s1"]
      ∧ strContains (mk_namespace "alice" "s1") "alice" = true
      ∧ strContains (mk_namespace "alice" "s1") "s1" = true) := by
  have hreq : mk_batch_request (.jstr "mem-1")
      (format_extracted_memories [cex_item] cex_payload 0) (.jstr "strat-1")
      w_tokens 0
      ∈ (batch_ingest_memories (.jstr "mem-1")
          (format_extracted_memories [cex_item] cex_payload 0) (.jstr "strat-1")
          w_tokens 0 w_bcOk).2.1 := List.mem_singleton.mpr rfl
  have hr : mk_batch_record w_tokens 0 0
      { mk_memory cex_payload 0 cex_item with
          memoryStrategyId := some (.jstr "strat-1") }
      ∈ (mk_batch_request (.jstr "mem-1")
          (format_extracted_memories [cex_item] cex_payload 0) (.jstr "strat-1")
          w_tokens 0).records := List.mem_singleton.mpr rfl
  exact ⟨hreq, hr,
    C3_amended_namespace [cex_item] cex_payload 0 (.jstr "mem-1") (.jstr "strat-1")
      w_tokens 0 w_bcOk _ hreq _ hr⟩

/-- C5: a raising batch write is propagated out of `batch_ingest_memories`
unchanged and the orchestrator maps it to a 500 response, while a raising
model call never reaches the orchestrator's error path (the response is 200). -/
theorem C5_ingestion_error_propagation (jsonLoads : String → Except String Json)
    (downloadPayload : Json → Except String Payload) (tokens : Nat → String)
    (now : Int) (event : SqsEvent) (jm : JobMetadata) (payload : Payload)
    (hparse : process_sqs_event jsonLoads downloadPayload event = .ok (jm, payload)) :
    (∀ (memory_id strategy_id : Json) (recs : List MemoryRecord)
        (bc : BatchRequest → Except String Unit) (e : String),
      recs ≠ [] → (∀ req, bc req = .error e) →
      (batch_ingest_memories memory_id recs strategy_id tokens now bc).2.2 = .error e)
    ∧ (∀ (invokeModel : String → Except String String)
        (jsonLoadsArr : String → Option (List Json))
        (bc : BatchRequest → Except String Unit) (e : String),
      (∀ req, bc req = .error e) →
      extract_memories invokeModel jsonLoadsArr payload now ≠ [] →
      lambda_handler jsonLoads downloadPayload invokeModel jsonLoadsArr bc tokens now event
        = { statusCode := 500, body := .jobj [("error", .jstr e)] })
    ∧ (∀ (invokeModel : String → Except String String)
        (jsonLoadsArr : String → Option (List Json))
        (bc : BatchRequest → Except String Unit) (e : String),
      invokeModel (extraction_prompt payload) = .error e →
      (lambda_handler jsonLoads downloadPayload invokeModel jsonLoadsArr bc tokens
          now event).statusCode = 200) := by
  refine ⟨?_, ?_, ?_⟩
  · intro memory_id strategy_id recs bc e hne hbc
    cases recs with
    | nil => exact absurd rfl hne
    | cons r rs =>
        show ingest_outcome
          (mk_batch_request memory_id (r :: rs) strategy_id tokens now).records.length
          (bc (mk_batch_request memory_id (r :: rs) strategy_id tokens now)) = .error e
        rw [hbc]
        rfl
  · intro invokeModel jsonLoadsArr bc e hbc hne
    cases hex : extract_memories invokeModel jsonLoadsArr payload now with
    | nil => exact absurd hex hne
    | cons m ms =>
        have hbi : (batch_ingest_memories jm.memory_id (m :: ms) jm.strategy_id
            tokens now bc).2.2 = .error e := by
          show ingest_outcome
            (mk_batch_request jm.memory_id (m :: ms) jm.strategy_id tokens now).records.length
            (bc (mk_batch_request jm.memory_id (m :: ms) jm.strategy_id tokens now)) = .error e
          rw [hbc]
          rfl
        simp only [lambda_handler, hparse, hex, hbi]
  · intro invokeModel jsonLoadsArr bc e hinv
    have hex : extract_memories invokeModel jsonLoadsArr payload now = [] := by
      unfold extract_memories
      rw [hinv]
    simp only [lambda_handler, hparse, hex]

/-- Witness for C5: a concrete successful parse, a failing batch write behind
a 500 response, and a failing model call behind a 200 response. -/
theorem C5_witness :
    process_sqs_event w_jsonLoads w_download w_event = .ok (w_jm, cex_payload)
    ∧ (([mk_memory cex_payload 0 cex_item] : List MemoryRecord) ≠ []
      ∧ (∀ req, w_bcFail req = .error "boom")
      ∧ (batch_ingest_memories (.jstr "mem-1") [mk_memory cex_payload 0 cex_item]
          (.jstr "strat-1") w_tokens 0 w_bcFail).2.2 = .error "boom")
    ∧ (extract_memories w_invokeOk w_loadsArr cex_payload 0 ≠ []
      ∧ lambda_handler w_jsonLoads w_download w_invokeOk w_loadsArr w_bcFail
          w_tokens 0 w_event
        = { statusCode := 500, body := .jobj [("error", .jstr "boom")] })
    ∧ (w_invokeFail (extraction_prompt cex_payload) = .error "model unavailable"
      ∧ (lambda_handler w_jsonLoads w_download w_invokeFail w_loadsArr w_bcFail
          w_tokens 0 w_event).statusCode = 200) := by
  have hparse : process_sqs_event w_jsonLoads w_download w_event
      = .ok (w_jm, cex_payload) := rfl
  have hne : extract_memories w_invokeOk w_loadsArr cex_payload 0 ≠ [] :=
    List.ne_nil_of_length_pos (by decide)
  have h := C5_ingestion_error_propagation w_jsonLoads w_download w_tokens 0
    w_event w_jm cex_payload hparse
  exact ⟨hparse,
    ⟨by simp, fun _ => rfl,
     h.1 (.jstr "mem-1") (.jstr "strat-1") [mk_memory cex_payload 0 cex_item]
       w_bcFail "boom" (by simp) (fun _ => rfl)⟩,
    ⟨hne, h.2.1 w_invokeOk w_loadsArr w_bcFail "boom" (fun _ => rfl) hne⟩,
    ⟨rfl, h.2.2 w_invokeFail w_loadsArr w_bcFail "model unavailable" rfl⟩⟩

/-- C1: the orchestrator is total on its oracles (no raw exception escapes)
and always returns a structured response — either a 200 whose body carries
`jobId`, `extractedMemories` and `ingestedRecords`, or a 500 whose body
carries `error`; moreover a parse failure yields exactly the 500 error body,
an empty extraction yields the 200 zero-count body, and a successful ingestion
yields the 200 body with both counts. -/
theorem C1_handler_structured_response (jsonLoads : String → Except String Json)
    (downloadPayload : Json → Except String Payload)
    (invokeModel : String → Except String String)
    (jsonLoadsArr : String → Option (List Json))
    (batchCreate : BatchRequest → Except String Unit)
    (tokens : Nat → String) (now : Int) (event : SqsEvent) :
    (((lambda_handler jsonLoads downloadPayload invokeModel jsonLoadsArr batchCreate
          tokens now event).statusCode = 200
        ∧ (lambda_handler jsonLoads downloadPayload invokeModel jsonLoadsArr batchCreate
          tokens now event).body.hasKey "jobId" = true
        ∧ (lambda_handler jsonLoads downloadPayload invokeModel jsonLoadsArr batchCreate
          tokens now event).body.hasKey "extractedMemories" = true
        ∧ (lambda_handler jsonLoads downloadPayload invokeModel jsonLoadsArr batchCreate
          tokens now event).body.hasKey "ingestedRecords" = true)
      ∨ ((lambda_handler jsonLoads downloadPayload invokeModel jsonLoadsArr batchCreate
          tokens now event).statusCode = 500
        ∧ (lambda_handler jsonLoads downloadPayload invokeModel jsonLoadsArr batchCreate
          tokens now event).body.hasKey "error" = true))
    ∧ (∀ e, process_sqs_event jsonLoads downloadPayload event = .error e →
        lambda_handler jsonLoads downloadPayload invokeModel jsonLoadsArr batchCreate
          tokens now event
        = { statusCode := 500, body := .jobj [("error", .jstr e)] })
    ∧ (∀ jm payload,
        process_sqs_event jsonLoads downloadPayload event = .ok (jm, payload) →
        extract_memories invokeModel jsonLoadsArr payload now = [] →
        lambda_handler jsonLoads downloadPayload invokeModel jsonLoadsArr batchCreate
          tokens now event
        = { statusCode := 200, body := .jobj [("jobId", jm.job_id),
            ("extractedMemories", .jint 0), ("ingestedRecords", .jint 0)] })
    ∧ (∀ jm payload res,
        process_sqs_event jsonLoads downloadPayload event = .ok (jm, payload) →
        extract_memories invokeModel jsonLoadsArr payload now ≠ [] →
        (batch_ingest_memories jm.memory_id
            (extract_memories invokeModel jsonLoadsArr payload now) jm.strategy_id
            tokens now batchCreate).2.2 = .ok res →
        lambda_handler jsonLoads downloadPayload invokeModel jsonLoadsArr batchCreate
          tokens now event
        = { statusCode := 200, body := .jobj [("jobId", jm.job_id),
            ("extractedMemories",
              .jint (extract_memories invokeModel jsonLoadsArr payload now).length),
            ("ingestedRecords", .jint res.recordsIngested)] }) := by
  have h500 : ∀ e, process_sqs_event jsonLoads downloadPayload event = .error e →
      lambda_handler jsonLoads downloadPayload invokeModel jsonLoadsArr batchCreate
        tokens now event
      = { statusCode := 500, body := .jobj [("error", .jstr e)] } := by
    intro e he
    simp only [lambda_handler, he]
  have hzero : ∀ jm payload,
      process_sqs_event jsonLoads downloadPayload event = .ok (jm, payload) →
      extract_memories invokeModel jsonLoadsArr payload now = [] →
      lambda_handler jsonLoads downloadPayload invokeModel jsonLoadsArr batchCreate
        tokens now event
      = { statusCode := 200, body := .jobj [("jobId", jm.job_id),
          ("extractedMemories", .jint 0), ("ingestedRecords", .jint 0)] } := by
    intro jm payload hp hex
    simp only [lambda_handler, hp, hex]
  have hok : ∀ jm payload res,
      process_sqs_event jsonLoads downloadPayload event = .ok (jm, payload) →
      extract_memories invokeModel jsonLoadsArr payload now ≠ [] →
      (batch_ingest_memories jm.memory_id
          (extract_memories invokeModel jsonLoadsArr payload now) jm.strategy_id
          tokens now batchCreate).2.2 = .ok res →
      lambda_handler jsonLoads downloadPayload invokeModel jsonLoadsArr batchCreate
        tokens now event
      = { statusCode := 200, body := .jobj [("jobId", jm.job_id),
          ("extractedMemories",
            .jint (extract_memories invokeModel jsonLoadsArr payload now).length),
          ("ingestedRecords", .jint res.recordsIngested)] } := by
    intro jm payload res hp hne hbi
    cases hex : extract_memories invokeModel jsonLoadsArr payload now with
    | nil => exact absurd hex hne
    | cons m ms =>
        rw [hex] at hbi
        simp only [lambda_handler, hp, hex, hbi]
  refine ⟨?_, h500, hzero, hok⟩
  cases hp : process_sqs_event jsonLoads downloadPayload event with
  | error e =>
      right
      rw [h500 e hp]
      exact ⟨rfl, rfl⟩
  | ok pr =>
      obtain ⟨jm, payload⟩ := pr
      cases hex : extract_memories invokeModel jsonLoadsArr payload now with
      | nil =>
          left
          rw [hzero jm payload hp hex]
          exact ⟨rfl, rfl, rfl, rfl⟩
      | cons m ms =>
          cases hbi : (batch_ingest_memories jm.memory_id (m :: ms) jm.strategy_id
              tokens now batchCreate).2.2 with
          | ok res =>
              left
              rw [hok jm payload res hp (by rw [hex]; simp) (by rw [hex]; exact hbi)]
              exact ⟨rfl, rfl, rfl, rfl⟩
          | error e =>
              right
              have h5 : lambda_handler jsonLoads downloadPayload invokeModel
                  jsonLoadsArr batchCreate tokens now event
                  = { statusCode := 500, body := .jobj [("error", .jstr e)] } := by
                simp only [lambda_handler, hp, hex, hbi]
              rw [h5]
              exact ⟨rfl, rfl⟩

/-- Witness for C1: a malformed event behind the 500 error body, an empty
extraction behind the 200 zero-count body, and a full successful run behind
the 200 body with counts 1 and 1. -/
theorem C1_witness :
    (process_sqs_event w_jsonLoads w_download { records := [] }
        = .error ("Expected 1 record, got "
            ++ toString ({ records := [] } : SqsEvent).records.length)
      ∧ lambda_handler w_jsonLoads w_download w_invokeOk w_loadsArr w_bcOk
          w_tokens 0 { records := [] }
        = { statusCode := 500,
            body := .jobj [("error", .jstr ("Expected 1 record, got "
              ++ toString ({ records := [] } : SqsEvent).records.length))] })
    ∧ (process_sqs_event w_jsonLoads w_download w_event = .ok (w_jm, cex_payload)
      ∧ extract_memories w_invokeFail w_loadsArr cex_payload 0 = []
      ∧ lambda_handler w_jsonLoads w_download w_invokeFail w_loadsArr w_bcOk
          w_tokens 0 w_event
        = { statusCode := 200, body := .jobj [("jobId", .jstr "job-1"),
            ("extractedMemories", .jint 0), ("ingestedRecords", .jint 0)] })
    ∧ (extract_memories w_invokeOk w_loadsArr cex_payload 0 ≠ []
      ∧ (batch_ingest_memories w_jm.memory_id
          (extract_memories w_invokeOk w_loadsArr cex_payload 0) w_jm.strategy_id
          w_tokens 0 w_bcOk).2.2 = .ok { recordsIngested := 1 }
      ∧ lambda_handler w_jsonLoads w_download w_invokeOk w_loadsArr w_bcOk
          w_tokens 0 w_event
        = { statusCode := 200, body := .jobj [("jobId", .jstr "job-1"),
            ("extractedMemories", .jint 1), ("ingestedRecords", .jint 1)] }) := by
  have hne : extract_memories w_invokeOk w_loadsArr cex_payload 0 ≠ [] :=
    List.ne_nil_of_length_pos (by decide)
  refine ⟨⟨rfl, ?_⟩, ⟨rfl, rfl, ?_⟩, ⟨hne, rfl, ?_⟩⟩
  · exact (C1_handler_structured_response w_jsonLoads w_download w_invokeOk
      w_loadsArr w_bcOk w_tokens 0 { records := [] }).2.1 _ rfl
  · exact (C1_handler_structured_response w_jsonLoads w_download w_invokeFail
      w_loadsArr w_bcOk w_tokens 0 w_event).2.2.1 w_jm cex_payload rfl rfl
  · exact (C1_handler_structured_response w_jsonLoads w_download w_invokeOk
      w_loadsArr w_bcOk w_tokens 0 w_event).2.2.2 w_jm cex_payload
      { recordsIngested := 1 } rfl hne rfl

end SelfManagedMemory
